import Mathlib

set_option maxRecDepth 40000
set_option maxHeartbeats 1000000

/-!
Verification development for the CORS proxy worker (`news.ts.orig`, worker
section): origin allow-listing, RSS/Atom normalization, cache TTL policy,
cache-key construction, CORS wrapping and the request orchestrator.

The JavaScript source is shallowly embedded: strings are Lean `String`s
(lists of Unicode scalars; the regex fragments used by the source are
emulated faithfully on `List Char`), platform primitives (`new URL`,
`caches.default`, the outbound `fetch`, `Date`) are oracle parameters of the
orchestrator, and `JSON.stringify` on the fixed record shapes produced by
the worker is modelled by a direct serializer.  JavaScript's
`String.fromCharCode` truncates to a UTF-16 code unit (`% 2^16`); code
points in the surrogate range are not Unicode scalars and are modelled as
`U+0000`.
-/

/-- Case-sensitive substring test on character lists; `containsL sub hay`
models JavaScript `hay.includes(sub)`. -/
def containsL (sub : List Char) : List Char → Bool
  | [] => sub.isEmpty
  | c :: t => sub.isPrefixOf (c :: t) || containsL sub t

/-- `strIncludes s sub` models JavaScript `s.includes(sub)`. -/
def strIncludes (s sub : String) : Bool :=
  containsL sub.data s.data

/-- Case-insensitive prefix test (models matching a literal regex fragment
under the `i` flag). -/
def isPrefixCI : List Char → List Char → Bool
  | [], _ => true
  | _ :: _, [] => false
  | p :: ps, c :: cs => (p.toLower == c.toLower) && isPrefixCI ps cs

/-- The worker's `ALLOWED_ORIGINS` constant, verbatim. -/
def ALLOWED_ORIGINS : List String :=
  [ "api.rss2json.com"
  , "api.gdeltproject.org"
  , "api.coingecko.com"
  , "fred.stlouisfed.org"
  , "earthquake.usgs.gov"
  , "feeds.bbci.co.uk"
  , "feeds.npr.org"
  , "rss.nytimes.com"
  , "rss.cnn.com"
  , "www.theguardian.com"
  , "news.google.com"
  , "news.ycombinator.com"
  , "hnrss.org"
  , "feeds.arstechnica.com"
  , "www.theverge.com"
  , "www.technologyreview.com"
  , "feeds.feedburner.com"
  , "arxiv.org"
  , "rss.arxiv.org"
  , "www.cnbc.com"
  , "feeds.marketwatch.com"
  , "finance.yahoo.com"
  , "www.ft.com"
  , "www.whitehouse.gov"
  , "www.federalreserve.gov"
  , "www.sec.gov"
  , "www.defense.gov"
  , "www.cisa.gov"
  , "www.csis.org"
  , "www.brookings.edu"
  , "www.cfr.org"
  , "www.defenseone.com"
  , "warontherocks.com"
  , "breakingdefense.com"
  , "www.thedrive.com"
  , "thediplomat.com"
  , "www.al-monitor.com"
  , "www.bellingcat.com"
  , "krebsonsecurity.com"
  , "openai.com"
  , "venturebeat.com"
  , "blog.google"
  , "news.mit.edu"
  , "huggingface.co"
  , "deepmind.google" ]

/-- The worker's `getCacheTtl(contentType, host)`: cache TTL in seconds by
content type and upstream host. -/
def getCacheTtl (contentType host : String) : Nat :=
  if strIncludes contentType "xml" || strIncludes contentType "rss" then 300
  else if strIncludes host "gdelt" then 180
  else if strIncludes host "coingecko" then 60
  else if strIncludes host "usgs" then 300
  else if strIncludes host "fred" then 3600
  else 120

/-- First-match evaluation of an ordered rule list (used by the reference
TTL definition below). -/
def firstMatch (ct h : String) : List ((String → String → Bool) × Nat) → Option Nat
  | [] => none
  | r :: rs => if r.1 ct h then some r.2 else firstMatch ct h rs

/-- The ordered TTL rule list as the spec states it (§4.3): content type
first, then host markers, first match wins. -/
def ttlRules : List ((String → String → Bool) × Nat) :=
  [ (fun ct _ => strIncludes ct "xml" || strIncludes ct "rss", 300)
  , (fun _ h => strIncludes h "gdelt", 180)
  , (fun _ h => strIncludes h "coingecko", 60)
  , (fun _ h => strIncludes h "usgs", 300)
  , (fun _ h => strIncludes h "fred", 3600) ]

/-- Modelled from the spec: the §4.3 contract `ttlFor(contentType, hostname)`
given by ordered first-match rule evaluation with default 120, stated
independently of `getCacheTtl` for comparison with it. -/
def ttlFor (contentType hostname : String) : Nat :=
  (firstMatch contentType hostname ttlRules).getD 120

/-- Find the earliest occurrence of `pat` (case-insensitively) in a list;
returns the original characters before the occurrence and the remainder
after it.  This is the lazy `[\s\S]*?` step of the source's block regexes. -/
def splitFirstCI (pat : List Char) : List Char → Option (List Char × List Char)
  | [] => if pat.isEmpty then some ([], []) else none
  | c :: t =>
    if isPrefixCI pat (c :: t) then some ([], (c :: t).drop pat.length)
    else
      match splitFirstCI pat t with
      | some (a, b) => some (c :: a, b)
      | none => none

/-- Leftmost match of the regex `openT[\s\S]*?closeT` (case-insensitive):
returns the matched text and the remainder after it. -/
def findBlock (openT closeT : List Char) : List Char → Option (List Char × List Char)
  | [] => none
  | c :: t =>
    if isPrefixCI openT (c :: t) then
      match splitFirstCI closeT ((c :: t).drop openT.length) with
      | some (mid, _) =>
        some ((c :: t).take (openT.length + mid.length + closeT.length),
              (c :: t).drop (openT.length + mid.length + closeT.length))
      | none => findBlock openT closeT t
    else findBlock openT closeT t

/-- Repeated (global-flag) matching of `openT[\s\S]*?closeT`; the fuel is an
upper bound on the number of matches and is instantiated with the input
length, which always suffices because every match consumes at least one
character. -/
def matchAllAux (openT closeT : List Char) : Nat → List Char → List (List Char)
  | 0, _ => []
  | fuel + 1, l =>
    match findBlock openT closeT l with
    | none => []
    | some (m, rest) => m :: matchAllAux openT closeT fuel rest

/-- All matches of `openT[\s\S]*?closeT` with flags `gi`, in document order
(models `xml.match(/<item[\s\S]*?<\/item>/gi)` and the Atom analogue). -/
def matchAll (openT closeT : List Char) (l : List Char) : List (List Char) :=
  matchAllAux openT closeT (l.length + 1) l

/-- JavaScript `String.prototype.trim` whitespace (the ASCII portion, which
is all the claims exercise). -/
def isJsSpace (c : Char) : Bool :=
  c.toNat = 32 || c.toNat = 9 || c.toNat = 10 || c.toNat = 13 || c.toNat = 11 || c.toNat = 12

/-- Models `text.trim()`. -/
def trimL (l : List Char) : List Char :=
  ((l.dropWhile isJsSpace).reverse.dropWhile isJsSpace).reverse

/-- Leftmost non-overlapping global replacement of the literal `pat` by
`rep` (models `text.replace(/pat/g, rep)`); fuel is the input length. -/
def replaceAllL (pat rep : List Char) : Nat → List Char → List Char
  | 0, l => l
  | _, [] => []
  | fuel + 1, c :: t =>
    if pat.isPrefixOf (c :: t) then rep ++ replaceAllL pat rep fuel ((c :: t).drop pat.length)
    else c :: replaceAllL pat rep fuel t

/-- Hexadecimal digit test for the `[0-9a-f]+` class under the `i` flag. -/
def isHexDigitCI (c : Char) : Bool :=
  (48 ≤ c.toNat && c.toNat ≤ 57) || (97 ≤ c.toLower.toNat && c.toLower.toNat ≤ 102)

/-- Decimal digit test for `\d`. -/
def isDecDigit (c : Char) : Bool :=
  48 ≤ c.toNat && c.toNat ≤ 57

/-- Numeric value of one hex digit. -/
def hexVal (c : Char) : Nat :=
  if c.toNat ≤ 57 then c.toNat - 48 else c.toLower.toNat - 87

/-- Value of a hex digit run (the capture of `&#x([0-9a-f]+);`). -/
def parseHexNat (l : List Char) : Nat :=
  l.foldl (fun a c => a * 16 + hexVal c) 0

/-- Value of a decimal digit run (the capture of `&#(\d+);`). -/
def parseDecNat (l : List Char) : Nat :=
  l.foldl (fun a c => a * 10 + (c.toNat - 48)) 0

/-- `String.fromCharCode`: a UTF-16 code unit, i.e. the value mod `2 ^ 16`;
surrogate code units are not Unicode scalars and are modelled as `U+0000`. -/
def fromCharCode (n : Nat) : Char :=
  Char.ofNat (n % 65536)

/-- One global pass of `text.replace(/&#x([0-9a-f]+);/gi, ...)`. -/
def replaceHexEntities : Nat → List Char → List Char
  | 0, l => l
  | _, [] => []
  | fuel + 1, c :: t =>
    if isPrefixCI ['&', '#', 'x'] (c :: t) then
      let digits := ((c :: t).drop 3).takeWhile isHexDigitCI
      match digits, ((c :: t).drop 3).drop digits.length with
      | _ :: _, ';' :: r => fromCharCode (parseHexNat digits) :: replaceHexEntities fuel r
      | _, _ => c :: replaceHexEntities fuel t
    else c :: replaceHexEntities fuel t

/-- One global pass of `text.replace(/&#(\d+);/g, ...)`. -/
def replaceDecEntities : Nat → List Char → List Char
  | 0, l => l
  | _, [] => []
  | fuel + 1, c :: t =>
    if ['&', '#'].isPrefixOf (c :: t) then
      let digits := ((c :: t).drop 2).takeWhile isDecDigit
      match digits, ((c :: t).drop 2).drop digits.length with
      | _ :: _, ';' :: r => fromCharCode (parseDecNat digits) :: replaceDecEntities fuel r
      | _, _ => c :: replaceDecEntities fuel t
    else c :: replaceDecEntities fuel t

/-- The worker's `decodeHtmlEntities(text)`: sequential global replacement
passes in source order (`&lt; &gt; &amp; &quot; &#39; &apos;`, then numeric
hex, then numeric decimal), with falsy (empty) input returned unchanged. -/
def decodeHtmlEntities (s : String) : String :=
  if s = "" then s
  else
    let pass := fun (pat rep : String) (x : List Char) =>
      replaceAllL pat.data rep.data (x.length + 1) x
    let x := pass "&lt;" "<" s.data
    let x := pass "&gt;" ">" x
    let x := pass "&amp;" "&" x
    let x := pass "&quot;" "\"" x
    let x := pass "&#39;" "'" x
    let x := pass "&apos;" "'" x
    let x := replaceHexEntities (x.length + 1) x
    let x := replaceDecEntities (x.length + 1) x
    String.mk x

/-- Match of `<tag[^>]*>` at the head of `l` (case-insensitive): consumes
`<tag`, then the maximal run of non-`>` characters, then `>`; returns the
remainder.  The run is forced, so no backtracking point exists here. -/
def matchOpenAt (tag : List Char) (l : List Char) : Option (List Char) :=
  if isPrefixCI ('<' :: tag) l then
    match (l.drop (tag.length + 1)).dropWhile (fun c => c ≠ '>') with
    | '>' :: r => some r
    | _ => none
  else none

/-- The literal `<![CDATA[` fragment. -/
def cdataMark : List Char := "<![CDATA[".data

/-- Leftmost match of the source's CDATA regex
`<tag[^>]*><!\[CDATA\[([\s\S]*?)\]\]><\/tag>` (flag `i`); returns the raw
capture. -/
def extractTagCdataAux (tag : List Char) : List Char → Option (List Char)
  | [] => none
  | c :: t =>
    match matchOpenAt tag (c :: t) with
    | some rest =>
      if isPrefixCI cdataMark rest then
        match splitFirstCI (']' :: ']' :: '>' :: '<' :: '/' :: (tag ++ ['>'])) (rest.drop cdataMark.length) with
        | some (mid, _) => some mid
        | none => extractTagCdataAux tag t
      else extractTagCdataAux tag t
    | none => extractTagCdataAux tag t

/-- Leftmost match of the source's plain regex `<tag[^>]*>([\s\S]*?)<\/tag>`
(flag `i`); returns the raw capture. -/
def extractTagPlainAux (tag : List Char) : List Char → Option (List Char)
  | [] => none
  | c :: t =>
    match matchOpenAt tag (c :: t) with
    | some rest =>
      match splitFirstCI ('<' :: '/' :: (tag ++ ['>'])) rest with
      | some (mid, _) => some mid
      | none => extractTagPlainAux tag t
    | none => extractTagPlainAux tag t

/-- The worker's `extractTag(xml, tagName)`: CDATA-wrapped match first, then
plain match, case-insensitively; the capture is trimmed, then entity-decoded;
`none` models the source's `null`. -/
def extractTag (xml tag : String) : Option String :=
  match extractTagCdataAux tag.data xml.data with
  | some mid => some (decodeHtmlEntities (String.mk (trimL mid)))
  | none =>
    match extractTagPlainAux tag.data xml.data with
    | some mid => some (decodeHtmlEntities (String.mk (trimL mid)))
    | none => none

/-- Quote test for the regex class `["']`. -/
def isQuote (c : Char) : Bool :=
  c = '"' || c.toNat = 39

/-- Attempt of the href regex tail at backtracking offset `k` into the
non-`>` run after `<link`: requires literal `href=`, a quote, a non-empty
maximal `[^"']+` capture, a closing quote, then `[^>]*>`. -/
def atomHrefAt (rest : List Char) (k : Nat) : Option (List Char) :=
  let s := rest.drop k
  if isPrefixCI "href=".data s then
    match s.drop 5 with
    | q :: r =>
      if isQuote q then
        let cap := r.takeWhile (fun c => !(isQuote c))
        match cap, r.drop cap.length with
        | _ :: _, q2 :: r2 =>
          if isQuote q2 then
            match r2.dropWhile (fun c => c ≠ '>') with
            | '>' :: _ => some cap
            | _ => none
          else none
        | _, _ => none
      else none
    | [] => none
  else none

/-- Greedy backtracking over the `[^>]*` before `href=`: offsets are tried
from the longest (`k`) down to 0, as the regex engine does. -/
def atomHrefTryK (rest : List Char) : Nat → Option (List Char)
  | 0 => atomHrefAt rest 0
  | k + 1 =>
    match atomHrefAt rest (k + 1) with
    | some cap => some cap
    | none => atomHrefTryK rest k

/-- Leftmost match of `/<link[^>]*href=["']([^"']+)["'][^>]*>/i`; the
capture is returned raw (the source neither trims nor decodes it). -/
def atomHrefAux : List Char → Option (List Char)
  | [] => none
  | c :: t =>
    if isPrefixCI "<link".data (c :: t) then
      let rest := (c :: t).drop 5
      match atomHrefTryK rest (rest.takeWhile (fun c => c ≠ '>')).length with
      | some cap => some cap
      | none => atomHrefAux t
    else atomHrefAux t

/-- The worker's `extractAtomLink(entry)`: the `href` attribute of a `link`
element if one matches, otherwise `extractTag(entry, 'link')`. -/
def extractAtomLink (entry : String) : Option String :=
  match atomHrefAux entry.data with
  | some cap => some (String.mk cap)
  | none => extractTag entry "link"

/-- JavaScript `a || b` for an extraction result against a string default:
`null` and the empty string are falsy. -/
def jsOrS (a : Option String) (b : String) : String :=
  match a with
  | some s => if s = "" then b else s
  | none => b

/-- One normalized feed entry (`items[i]` of the worker's JSON shape). -/
structure FeedItem where
  title : String
  pubDate : String
  link : String
  description : String
  content : String
deriving DecidableEq, Repr

/-- The `feed` header of the worker's JSON shape. -/
structure FeedMeta where
  url : String
  title : String
  link : String
  description : String
deriving DecidableEq, Repr

/-- The whole document produced by `parseRssToJson`. -/
structure FeedDocument where
  status : String
  feed : FeedMeta
  items : List FeedItem
deriving DecidableEq, Repr

/-- Per-entry extraction on the Atom path of `parseRssToJson`. -/
def parseAtomEntry (entry : String) : FeedItem :=
  { title := jsOrS (extractTag entry "title") ""
  , pubDate := jsOrS (extractTag entry "published") (jsOrS (extractTag entry "updated") "")
  , link := jsOrS (extractAtomLink entry) ""
  , description := jsOrS (extractTag entry "summary") (jsOrS (extractTag entry "content") "")
  , content := jsOrS (extractTag entry "content") "" }

/-- Per-item extraction on the RSS path of `parseRssToJson`. -/
def parseRssItem (item : String) : FeedItem :=
  { title := jsOrS (extractTag item "title") ""
  , pubDate := jsOrS (extractTag item "pubDate") (jsOrS (extractTag item "dc:date") "")
  , link := jsOrS (extractTag item "link") (jsOrS (extractTag item "guid") "")
  , description := jsOrS (extractTag item "description") ""
  , content := jsOrS (extractTag item "content:encoded") (jsOrS (extractTag item "content") "") }

/-- The retention test `if (item.title || item.link)`. -/
def keepItem (it : FeedItem) : Bool :=
  it.title != "" || it.link != ""

/-- The source's Atom detection:
`xml.includes('<feed') && xml.includes('xmlns="http://www.w3.org/2005/Atom"')`. -/
def isAtomXml (xml : String) : Bool :=
  strIncludes xml "<feed" && strIncludes xml "xmlns=\"http://www.w3.org/2005/Atom\""

/-- The worker's `parseRssToJson(xml, feedUrl)`. -/
def parseRssToJson (xml feedUrl : String) : FeedDocument :=
  let meta : FeedMeta :=
    { url := feedUrl
    , title := jsOrS (extractTag xml "title") ""
    , link := jsOrS (extractTag xml "link") feedUrl
    , description := jsOrS (extractTag xml "description") (jsOrS (extractTag xml "subtitle") "") }
  let items :=
    if isAtomXml xml then
      (((matchAll "<entry".data "</entry>".data xml.data).take 20).map
        (fun e => parseAtomEntry (String.mk e))).filter keepItem
    else
      (((matchAll "<item".data "</item>".data xml.data).take 20).map
        (fun e => parseRssItem (String.mk e))).filter keepItem
  { status := "ok", feed := meta, items := items }

/-- The worker's `isRssFeed(contentType, body)` (body falsiness included). -/
def isRssFeed (contentType body : String) : Bool :=
  if strIncludes contentType "xml" || strIncludes contentType "rss" || strIncludes contentType "atom" then
    true
  else
    body != "" && (strIncludes body "<rss" || strIncludes body "<feed" || strIncludes body "<channel")

/-- The worker's `isAllowedOrigin(targetUrl)`.  `parseHost` is the oracle
for the platform `new URL` constructor: `none` models a throw, `some h` a
parse whose `hostname` is `h`. -/
def isAllowedOrigin (parseHost : String → Option String) (targetUrl : String) : Bool :=
  match parseHost targetUrl with
  | none => false
  | some h => ALLOWED_ORIGINS.any (fun a => strIncludes h a)

/-- The cache key URL: `wantJson ? targetUrl + '__json' : targetUrl`. -/
def cacheKeyUrl (targetUrl : String) (wantJson : Bool) : String :=
  if wantJson then targetUrl ++ "__json" else targetUrl

/-- Lower-case a string (HTTP header names are case-insensitive). -/
def lowerStr (s : String) : String :=
  String.mk (s.data.map Char.toLower)

/-- A header list (name, value); models a `Headers` object. -/
def getHeader (hs : List (String × String)) (name : String) : Option String :=
  (hs.find? (fun p => lowerStr p.1 = lowerStr name)).map (fun p => p.2)

/-- `headers.set(name, value)`: replace an existing entry (case-insensitive
name match) or append. -/
def setHeader (hs : List (String × String)) (name v : String) : List (String × String) :=
  if hs.any (fun p => lowerStr p.1 = lowerStr name) then
    hs.map (fun p => if lowerStr p.1 = lowerStr name then (p.1, v) else p)
  else hs ++ [(name, v)]

/-- A `Response` value: status, status text, body and headers. -/
structure WResponse where
  status : Nat
  statusText : String
  body : String
  headers : List (String × String)
deriving DecidableEq, Repr

/-- The worker's `addCorsHeaders(response, origin)`. -/
def addCorsHeaders (r : WResponse) (origin : String) : WResponse :=
  let h1 := setHeader r.headers "Access-Control-Allow-Origin" (if origin = "" then "*" else origin)
  let h2 := setHeader h1 "Access-Control-Allow-Methods" "GET, HEAD, OPTIONS"
  let h3 := setHeader h2 "Access-Control-Allow-Headers" "Content-Type, Accept"
  let h4 := setHeader h3 "Access-Control-Max-Age" "86400"
  { r with headers := h4 }

/-- JSON string-literal escaping as `JSON.stringify` performs it on the
characters the worker's payloads can contain. -/
def jsonEscapeChar (c : Char) : String :=
  if c = '"' then "\\\""
  else if c = '\\' then "\\\\"
  else if c.toNat = 10 then "\\n"
  else if c.toNat = 13 then "\\r"
  else if c.toNat = 9 then "\\t"
  else String.mk [c]

/-- A JSON string literal. -/
def jsonStr (s : String) : String :=
  "\"" ++ String.join (s.data.map jsonEscapeChar) ++ "\""

/-- A JSON object with string-valued fields, in field order (as
`JSON.stringify` emits the worker's literal objects). -/
def jsonObj (fields : List (String × String)) : String :=
  "\x7b" ++ String.intercalate "," (fields.map (fun p => jsonStr p.1 ++ ":" ++ jsonStr p.2)) ++ "\x7d"

/-- A JSON array of string literals. -/
def jsonStrArray (l : List String) : String :=
  "[" ++ String.intercalate "," (l.map jsonStr) ++ "]"

/-- `JSON.stringify` of one normalized item. -/
def jsonOfItem (it : FeedItem) : String :=
  jsonObj [("title", it.title), ("pubDate", it.pubDate), ("link", it.link),
           ("description", it.description), ("content", it.content)]

/-- `JSON.stringify` of the whole `parseRssToJson` result. -/
def jsonOfFeedDocument (d : FeedDocument) : String :=
  "\x7b" ++ jsonStr "status" ++ ":" ++ jsonStr d.status ++ "," ++
    jsonStr "feed" ++ ":" ++
      jsonObj [("url", d.feed.url), ("title", d.feed.title),
               ("link", d.feed.link), ("description", d.feed.description)] ++ "," ++
    jsonStr "items" ++ ":" ++
      "[" ++ String.intercalate "," (d.items.map jsonOfItem) ++ "]" ++ "\x7d"

/-- The 400 body `JSON.stringify({error: 'Missing url parameter', usage: ...})`. -/
def missingUrlBody : String :=
  jsonObj [("error", "Missing url parameter"),
           ("usage", "Add ?url=<encoded-url>&format=json to fetch and parse RSS feeds")]

/-- The 403 body `JSON.stringify({error: 'Domain not allowed', allowed: ALLOWED_ORIGINS})`. -/
def notAllowedBody : String :=
  "\x7b" ++ jsonStr "error" ++ ":" ++ jsonStr "Domain not allowed" ++ "," ++
    jsonStr "allowed" ++ ":" ++ jsonStrArray ALLOWED_ORIGINS ++ "\x7d"

/-- The upstream-error passthrough body. -/
def upstreamErrorBody (status : Nat) (statusText url : String) : String :=
  jsonObj [("error", "Upstream error: " ++ toString status ++ " " ++ statusText), ("url", url)]

/-- The 502 proxy-error body. -/
def proxyErrorBody (message url : String) : String :=
  jsonObj [("error", "Proxy error"), ("message", message), ("url", url)]

/-- An upstream `fetch` result (`ok` is derived from the status). -/
structure UpstreamResponse where
  status : Nat
  statusText : String
  contentType : Option String
  body : String

/-- The inbound request as the worker reads it: method, the `url` and
`format` query parameters (`none` models an absent parameter) and the
`Origin` header. -/
structure WorkerRequest where
  method : String
  urlParam : Option String
  formatParam : Option String
  originHeader : Option String

/-- What one invocation of the worker produced: the outbound response,
whether the upstream origin was contacted (the `fetch(targetUrl, ...)`
call was issued), and the deferred `ctx.waitUntil(cache.put(...))` write,
if any, as (key, stored response). -/
structure FetchOutcome where
  response : WResponse
  contactedOrigin : Bool
  cacheWrite : Option (String × WResponse)

/-- The worker's default-export `fetch(request, env, ctx)` handler, with the
platform effects as oracles: `parseHost` models `new URL(u).hostname`
(`none` = the constructor throws), `cacheMatch` models
`caches.default.match` keyed by the cache-key URL, `upstream` models the
outbound `fetch` (`Except.error msg` = the promise rejects with
`error.message = msg`), and `nowIso` models `new Date().toISOString()`. -/
def workerFetch (parseHost : String → Option String)
    (cacheMatch : String → Option WResponse)
    (upstream : String → Except String UpstreamResponse)
    (nowIso : String)
    (req : WorkerRequest) : FetchOutcome :=
  let origin := match req.originHeader with
    | some o => if o = "" then "*" else o
    | none => "*"
  if req.method = "OPTIONS" then
    { response :=
        { status := 200, statusText := "", body := ""
        , headers :=
            [ ("Access-Control-Allow-Origin", origin)
            , ("Access-Control-Allow-Methods", "GET, HEAD, OPTIONS")
            , ("Access-Control-Allow-Headers", "Content-Type, Accept")
            , ("Access-Control-Max-Age", "86400") ] }
    , contactedOrigin := false, cacheWrite := none }
  else if req.method ≠ "GET" then
    { response := { status := 405, statusText := "", body := "Method not allowed", headers := [] }
    , contactedOrigin := false, cacheWrite := none }
  else
    let targetUrl := req.urlParam.getD ""
    let wantJson := req.formatParam == some "json"
    if targetUrl = "" then
      { response :=
          { status := 400, statusText := "", body := missingUrlBody
          , headers := [("Content-Type", "application/json")] }
      , contactedOrigin := false, cacheWrite := none }
    else if !(isAllowedOrigin parseHost targetUrl) then
      { response :=
          { status := 403, statusText := "", body := notAllowedBody
          , headers := [("Content-Type", "application/json")] }
      , contactedOrigin := false, cacheWrite := none }
    else
      let key := cacheKeyUrl targetUrl wantJson
      match cacheMatch key with
      | some cached =>
        let r0 := addCorsHeaders cached origin
        let r1 := { r0 with headers := setHeader r0.headers "X-Cache" "HIT" }
        let storedTime := (getHeader cached.headers "X-Cache-Time").getD "unknown"
        let r2 := { r1 with headers := setHeader r1.headers "X-Cache-Time" storedTime }
        { response := r2, contactedOrigin := false, cacheWrite := none }
      | none =>
        match parseHost targetUrl with
        | none =>
          { response := addCorsHeaders
              { status := 502, statusText := "", body := proxyErrorBody "Invalid URL" targetUrl
              , headers := [("Content-Type", "application/json")] } origin
          , contactedOrigin := false, cacheWrite := none }
        | some host =>
          match upstream targetUrl with
          | Except.error msg =>
            { response := addCorsHeaders
                { status := 502, statusText := "", body := proxyErrorBody msg targetUrl
                , headers := [("Content-Type", "application/json")] } origin
            , contactedOrigin := true, cacheWrite := none }
          | Except.ok up =>
            if !(200 ≤ up.status && up.status ≤ 299) then
              { response := addCorsHeaders
                  { status := up.status, statusText := ""
                  , body := upstreamErrorBody up.status up.statusText targetUrl
                  , headers := [("Content-Type", "application/json")] } origin
              , contactedOrigin := true, cacheWrite := none }
            else
              let contentType := up.contentType.getD ""
              let body := up.body
              let cacheTtl := getCacheTtl contentType host
              let final :=
                if wantJson && isRssFeed contentType body then
                  (jsonOfFeedDocument (parseRssToJson body targetUrl), "application/json")
                else (body, contentType)
              let finalResponse : WResponse :=
                { status := 200, statusText := "", body := final.1
                , headers :=
                    [ ("Content-Type", final.2), ("X-Cache", "MISS")
                    , ("X-Cache-TTL", toString cacheTtl) ] }
              let write :=
                if 0 < cacheTtl then
                  some (key,
                    { status := 200, statusText := "", body := final.1
                    , headers := setHeader
                        (setHeader finalResponse.headers "Cache-Control"
                          ("public, max-age=" ++ toString cacheTtl))
                        "X-Cache-Time" nowIso })
                else none
              { response := addCorsHeaders finalResponse origin
              , contactedOrigin := true, cacheWrite := write }

/-- Claim C8: `getCacheTtl` equals the reference definition given by the
spec's ordered first-match rule evaluation — contentType containing "xml" or
"rss" gives 300; else the news-aggregation marker 180; else the
cryptocurrency marker 60; else the seismological marker 300; else the
macroeconomic marker 3600; else 120 — and, being a total function on string
pairs, it always returns a value. -/
theorem C8_ttl_refines_spec (ct host : String) : getCacheTtl ct host = ttlFor ct host := by
  cases h1 : strIncludes ct "xml" <;> cases h2 : strIncludes ct "rss" <;>
    cases h3 : strIncludes host "gdelt" <;> cases h4 : strIncludes host "coingecko" <;>
    cases h5 : strIncludes host "usgs" <;> cases h6 : strIncludes host "fred" <;>
    simp [getCacheTtl, ttlFor, ttlRules, firstMatch, h1, h2, h3, h4, h5, h6]

/-- Claim C3, counterexample: a hostname matching the macroeconomic-data
marker ("fred") does not always receive TTL 3600 — with contentType
"application/xml" the content-type rule fires first and the TTL is 300. -/
theorem C3_ttl_contenttype_counterexample :
    getCacheTtl "application/xml" "fred.stlouisfed.org" = 300 ∧
    getCacheTtl "text/plain" "fred.stlouisfed.org" = 3600 := by
  constructor <;> decide

/-- Claim C3 as amended: the host rules hold only when no earlier rule
fires.  A hostname containing "usgs" but neither "gdelt" nor "coingecko"
always receives TTL 300 (independent of contentType, since the content-type
rule also yields 300); a hostname containing "fred" and no earlier marker
receives 3600 only when contentType contains neither "xml" nor "rss"; a
hostname matching no marker receives 120 only when contentType contains
neither "xml" nor "rss". -/
theorem C3_ttl_host_rules_amended (ct host : String) :
    (strIncludes host "usgs" = true → strIncludes host "gdelt" = false →
      strIncludes host "coingecko" = false → getCacheTtl ct host = 300)
    ∧ (strIncludes ct "xml" = false → strIncludes ct "rss" = false →
      strIncludes host "gdelt" = false → strIncludes host "coingecko" = false →
      strIncludes host "usgs" = false → strIncludes host "fred" = true →
      getCacheTtl ct host = 3600)
    ∧ (strIncludes ct "xml" = false → strIncludes ct "rss" = false →
      strIncludes host "gdelt" = false → strIncludes host "coingecko" = false →
      strIncludes host "usgs" = false → strIncludes host "fred" = false →
      getCacheTtl ct host = 120) := by
  refine ⟨fun h5 h3 h4 => ?_, fun h1 h2 h3 h4 h5 h6 => ?_, fun h1 h2 h3 h4 h5 h6 => ?_⟩ <;>
    simp [getCacheTtl, h3, h4, h5, *]

/-- Claim C3, witness: the three amended rules evaluated at concrete
content types and hostnames. -/
theorem C3_ttl_host_rules_witness :
    getCacheTtl "text/plain" "earthquake.usgs.gov" = 300 ∧
    getCacheTtl "application/json" "fred.stlouisfed.org" = 3600 ∧
    getCacheTtl "application/json" "api.example.com" = 120 :=
  ⟨(C3_ttl_host_rules_amended "text/plain" "earthquake.usgs.gov").1
      (by decide) (by decide) (by decide),
   (C3_ttl_host_rules_amended "application/json" "fred.stlouisfed.org").2.1
      (by decide) (by decide) (by decide) (by decide) (by decide) (by decide),
   (C3_ttl_host_rules_amended "application/json" "api.example.com").2.2
      (by decide) (by decide) (by decide) (by decide) (by decide) (by decide)⟩

/-- Claim C9: cache-key construction is not injective — the raw-format
request for `https://earthquake.usgs.gov/feed__json` and the JSON-format
request for `https://earthquake.usgs.gov/feed` are distinct requests with
the same cache key, and with that key populated, the same cached body is
served (`X-Cache: HIT`) for both. -/
theorem C9_cache_key_collision :
    cacheKeyUrl "https://earthquake.usgs.gov/feed" true
      = cacheKeyUrl "https://earthquake.usgs.gov/feed__json" false
    ∧ (("https://earthquake.usgs.gov/feed", true) : String × Bool)
        ≠ ("https://earthquake.usgs.gov/feed__json", false)
    ∧ (workerFetch (fun _ => some "earthquake.usgs.gov")
        (fun k => if k = "https://earthquake.usgs.gov/feed__json"
          then some { status := 200, statusText := "", body := "CACHEDBODY"
                    , headers := [("Content-Type", "text/xml")] }
          else none)
        (fun _ => Except.error "network") "T"
        { method := "GET", urlParam := some "https://earthquake.usgs.gov/feed__json"
        , formatParam := none, originHeader := none }).response.body = "CACHEDBODY"
    ∧ (workerFetch (fun _ => some "earthquake.usgs.gov")
        (fun k => if k = "https://earthquake.usgs.gov/feed__json"
          then some { status := 200, statusText := "", body := "CACHEDBODY"
                    , headers := [("Content-Type", "text/xml")] }
          else none)
        (fun _ => Except.error "network") "T"
        { method := "GET", urlParam := some "https://earthquake.usgs.gov/feed"
        , formatParam := some "json", originHeader := none }).response.body = "CACHEDBODY" := by
  refine ⟨by decide, by decide, by decide, by decide⟩

/-- One minimal well-formed RSS item with a single-character title. -/
def itemFor (c : Char) : String :=
  "<item><title>" ++ String.mk [c] ++ "</title></item>"

/-- A feed with 35 well-formed items, titled by 35 distinct characters in
document order. -/
def feed35 : String :=
  "<rss version=\"2.0\"><channel>" ++
    String.join ("abcdefghijklmnopqrstuvwxyz123456789".data.map itemFor) ++
    "</channel></rss>"

/-- The normalization of the first 20 of those items, in document order. -/
def expected20 : List FeedItem :=
  "abcdefghijklmnopqrst".data.map
    (fun c => { title := String.mk [c], pubDate := "", link := "", description := "", content := "" })

/-- Claim C5: the normalizer takes only the first 20 item elements, in
source order, and retains exactly those with a non-empty title or link:
for every input the output has at most 20 items, each retained item has a
non-empty title or a non-empty link, and the 35-item feed `feed35` (whose
source really contains 35 item matches) yields exactly its first 20 items
in document order. -/
theorem C5_entry_cap :
    (∀ xml url : String,
      (parseRssToJson xml url).items.length ≤ 20
      ∧ ∀ it ∈ (parseRssToJson xml url).items, it.title ≠ "" ∨ it.link ≠ "")
    ∧ (matchAll "<item".data "</item>".data feed35.data).length = 35
    ∧ (parseRssToJson feed35 "https://example.com/feed").items = expected20 := by
  refine ⟨fun xml url => ⟨?_, ?_⟩, by decide, by decide⟩
  · simp only [parseRssToJson]
    by_cases hA : isAtomXml xml = true
    · rw [if_pos hA]
      refine le_trans (List.length_filter_le _ _) ?_
      rw [List.length_map, List.length_take]
      exact Nat.min_le_left _ _
    · rw [if_neg hA]
      refine le_trans (List.length_filter_le _ _) ?_
      rw [List.length_map, List.length_take]
      exact Nat.min_le_left _ _
  · intro it hmem
    simp only [parseRssToJson] at hmem
    have hk : keepItem it = true := by
      by_cases hA : isAtomXml xml = true
      · rw [if_pos hA] at hmem
        exact (List.mem_filter.mp hmem).2
      · rw [if_neg hA] at hmem
        exact (List.mem_filter.mp hmem).2
    simpa [keepItem] using hk

/-- Claim C5, witness: the general bound and the retention property
evaluated on a concrete one-item feed and its retained item. -/
theorem C5_entry_cap_witness :
    (parseRssToJson "<rss><item><title>a</title></item></rss>" "u").items.length ≤ 20
    ∧ (({ title := "a", pubDate := "", link := "", description := "", content := "" } : FeedItem).title ≠ ""
        ∨ ({ title := "a", pubDate := "", link := "", description := "", content := "" } : FeedItem).link ≠ "") :=
  ⟨(C5_entry_cap.1 "<rss><item><title>a</title></item></rss>" "u").1,
   (C5_entry_cap.1 "<rss><item><title>a</title></item></rss>" "u").2
      { title := "a", pubDate := "", link := "", description := "", content := "" } (by decide)⟩

/-- Claim C6: tag extraction tries a CDATA-wrapped match before a plain
match, case-insensitively, trims and entity-decodes the capture; the CDATA
title holding the six encodings `&amp; &lt; &gt; &quot; &#39; &#65;`
round-trips to `&`, `<`, `>`, `"`, `'`, `A`, and each single entity decodes
as the claim states. -/
theorem C6_entity_roundtrip :
    extractTag "<title><![CDATA[&amp;&lt;&gt;&quot;&#39;&#65;]]></title>" "title"
      = some "&<>\"'A"
    ∧ extractTag "<title><![CDATA[ X ]]></title><title>Y</title>" "title" = some "X"
    ∧ extractTag "<TITLE>z</TITLE>" "title" = some "z"
    ∧ decodeHtmlEntities "&amp;" = "&"
    ∧ decodeHtmlEntities "&lt;" = "<"
    ∧ decodeHtmlEntities "&gt;" = ">"
    ∧ decodeHtmlEntities "&quot;" = "\""
    ∧ decodeHtmlEntities "&#39;" = "'"
    ∧ decodeHtmlEntities "&#65;" = "A" := by
  refine ⟨?_, ?_, ?_, ?_, ?_, ?_, ?_, ?_, ?_⟩ <;> decide

/-- A document declaring the Atom namespace on its `feed` element that also
contains a `<channel>` substring, one RSS-style `item` and one Atom `entry`. -/
def docAtom : String :=
  "<feed xmlns=\"http://www.w3.org/2005/Atom\"><channel><item><title>R</title></item></channel><entry><title>A</title></entry></feed>"

/-- The same document without the Atom namespace declaration. -/
def docRss : String :=
  "<feed><channel><item><title>R</title></item></channel><entry><title>A</title></entry></feed>"

/-- Claim C7: a document declaring the Atom namespace on a `feed` element is
parsed via the Atom entry path even though it contains a `<channel>`
substring (its one normalized item comes from the `entry` element), and the
same document without the Atom marker routes to the RSS/RDF path (its one
normalized item comes from the `item` element). -/
theorem C7_atom_detection :
    strIncludes docAtom "<channel>" = true
    ∧ isAtomXml docAtom = true
    ∧ (parseRssToJson docAtom "u").items
        = [{ title := "A", pubDate := "", link := "", description := "", content := "" }]
    ∧ isAtomXml docRss = false
    ∧ (parseRssToJson docRss "u").items
        = [{ title := "R", pubDate := "", link := "", description := "", content := "" }] := by
  refine ⟨?_, ?_, ?_, ?_, ?_⟩ <;> decide

/-- Claim C1, code-bug evidence: three outbound code paths carry no CORS
headers at all.  At concrete inputs, the 405 method rejection (POST), the
400 missing-parameter response and the 403 disallowed-origin response each
come back without an `Access-Control-Allow-Origin` header (the other three
CORS headers are set only alongside it, by `addCorsHeaders`), contradicting
the claim that every outbound response carries the CORS header set. -/
theorem C1_cors_missing_on_error_paths :
    ((workerFetch (fun _ => none) (fun _ => none) (fun _ => Except.error "network") "T"
        { method := "POST", urlParam := none, formatParam := none
        , originHeader := some "https://dashboard.example" }).response.status = 405
      ∧ getHeader (workerFetch (fun _ => none) (fun _ => none) (fun _ => Except.error "network") "T"
        { method := "POST", urlParam := none, formatParam := none
        , originHeader := some "https://dashboard.example" }).response.headers
          "Access-Control-Allow-Origin" = none)
    ∧ ((workerFetch (fun _ => none) (fun _ => none) (fun _ => Except.error "network") "T"
        { method := "GET", urlParam := none, formatParam := none
        , originHeader := some "https://dashboard.example" }).response.status = 400
      ∧ getHeader (workerFetch (fun _ => none) (fun _ => none) (fun _ => Except.error "network") "T"
        { method := "GET", urlParam := none, formatParam := none
        , originHeader := some "https://dashboard.example" }).response.headers
          "Access-Control-Allow-Origin" = none)
    ∧ ((workerFetch (fun _ => none) (fun _ => none) (fun _ => Except.error "network") "T"
        { method := "GET", urlParam := some "https://evil.example/feed", formatParam := none
        , originHeader := some "https://dashboard.example" }).response.status = 403
      ∧ getHeader (workerFetch (fun _ => none) (fun _ => none) (fun _ => Except.error "network") "T"
        { method := "GET", urlParam := some "https://evil.example/feed", formatParam := none
        , originHeader := some "https://dashboard.example" }).response.headers
          "Access-Control-Allow-Origin" = none) := by
  refine ⟨⟨?_, ?_⟩, ⟨?_, ?_⟩, ⟨?_, ?_⟩⟩ <;> decide

/-- Claim C2, counterexample: a HEAD request with a well-formed allowed
target URL is rejected with 405 (`request.method !== 'GET'`), though the
claim states HEAD is not rejected with 405. -/
theorem C2_head_rejected_counterexample :
    (workerFetch (fun _ => some "earthquake.usgs.gov") (fun _ => none)
      (fun _ => Except.error "network") "T"
      { method := "HEAD", urlParam := some "https://earthquake.usgs.gov/feed.xml"
      , formatParam := none, originHeader := none }).response.status = 405 := by
  decide

/-- Claim C2 as amended: any method other than GET or OPTIONS — HEAD
included — yields status 405 with the plain-text body, and a GET request
with the target-URL parameter missing yields status 400 with the documented
usage body. -/
theorem C2_method_gate_amended (ph : String → Option String)
    (cm : String → Option WResponse) (us : String → Except String UpstreamResponse)
    (now : String) (req : WorkerRequest) :
    (req.method ≠ "OPTIONS" → req.method ≠ "GET" →
      (workerFetch ph cm us now req).response.status = 405
      ∧ (workerFetch ph cm us now req).response.body = "Method not allowed")
    ∧ (req.method = "GET" → req.urlParam = none →
      (workerFetch ph cm us now req).response.status = 400
      ∧ (workerFetch ph cm us now req).response.body = missingUrlBody) := by
  constructor
  · intro hO hG
    simp [workerFetch, hO, hG]
  · intro hG hU
    simp [workerFetch, hG, hU]

/-- Claim C2, witness: the amended method gate evaluated at a concrete POST
request (405) and a concrete GET request without a url parameter (400). -/
theorem C2_method_gate_witness :
    (workerFetch (fun _ => none) (fun _ => none) (fun _ => Except.error "e") "T"
      { method := "POST", urlParam := none, formatParam := none, originHeader := none }).response.status = 405
    ∧ (workerFetch (fun _ => none) (fun _ => none) (fun _ => Except.error "e") "T"
      { method := "GET", urlParam := none, formatParam := none, originHeader := none }).response.body = missingUrlBody :=
  ⟨((C2_method_gate_amended (fun _ => none) (fun _ => none) (fun _ => Except.error "e") "T"
      { method := "POST", urlParam := none, formatParam := none, originHeader := none }).1
      (by decide) (by decide)).1,
   ((C2_method_gate_amended (fun _ => none) (fun _ => none) (fun _ => Except.error "e") "T"
      { method := "GET", urlParam := none, formatParam := none, originHeader := none }).2
      rfl rfl).2⟩

/-- Claim C4: `isAllowedOrigin` returns false whenever URL parsing fails
(fail closed) and otherwise returns true exactly when the parsed hostname
contains some configured allowed-origin entry as a substring; and a GET
request carrying a target URL that fails the test receives status 403 with
the body enumerating the allow-list, with the origin never fetched. -/
theorem C4_allowlist_fail_closed (ph : String → Option String)
    (cm : String → Option WResponse) (us : String → Except String UpstreamResponse)
    (now : String) (req : WorkerRequest) (t : String) :
    (ph t = none → isAllowedOrigin ph t = false)
    ∧ (∀ h, ph t = some h →
        (isAllowedOrigin ph t = true ↔ ∃ a ∈ ALLOWED_ORIGINS, strIncludes h a = true))
    ∧ (req.method = "GET" → req.urlParam = some t → t ≠ "" →
        isAllowedOrigin ph t = false →
        (workerFetch ph cm us now req).response.status = 403
        ∧ (workerFetch ph cm us now req).response.body = notAllowedBody
        ∧ (workerFetch ph cm us now req).contactedOrigin = false) := by
  refine ⟨?_, ?_, ?_⟩
  · intro hp
    simp [isAllowedOrigin, hp]
  · intro h hp
    simp [isAllowedOrigin, hp, List.any_eq_true]
  · intro hm hu ht hf
    simp [workerFetch, hm, hu, ht, hf]

/-- Claim C4, witness: with a URL whose parse fails the validator returns
false, and a concrete GET for `https://evil.example/feed` (hostname
`evil.example`, in no allow-list entry) receives 403, the allow-list body,
and no origin contact. -/
theorem C4_allowlist_witness :
    isAllowedOrigin (fun _ => none) "https://evil.example/feed" = false
    ∧ (workerFetch (fun u => if u = "https://evil.example/feed" then some "evil.example" else none)
        (fun _ => none) (fun _ => Except.error "network") "T"
        { method := "GET", urlParam := some "https://evil.example/feed"
        , formatParam := none, originHeader := none }).response.status = 403
    ∧ (workerFetch (fun u => if u = "https://evil.example/feed" then some "evil.example" else none)
        (fun _ => none) (fun _ => Except.error "network") "T"
        { method := "GET", urlParam := some "https://evil.example/feed"
        , formatParam := none, originHeader := none }).contactedOrigin = false :=
  ⟨(C4_allowlist_fail_closed (fun _ => none) (fun _ => none) (fun _ => Except.error "network") "T"
      { method := "GET", urlParam := some "https://evil.example/feed"
      , formatParam := none, originHeader := none } "https://evil.example/feed").1 rfl,
   ((C4_allowlist_fail_closed
        (fun u => if u = "https://evil.example/feed" then some "evil.example" else none)
        (fun _ => none) (fun _ => Except.error "network") "T"
        { method := "GET", urlParam := some "https://evil.example/feed"
        , formatParam := none, originHeader := none } "https://evil.example/feed").2.2
      rfl rfl (by decide) (by decide)).1,
   ((C4_allowlist_fail_closed
        (fun u => if u = "https://evil.example/feed" then some "evil.example" else none)
        (fun _ => none) (fun _ => Except.error "network") "T"
        { method := "GET", urlParam := some "https://evil.example/feed"
        , formatParam := none, originHeader := none } "https://evil.example/feed").2.2
      rfl rfl (by decide) (by decide)).2.2⟩

/-- Claim C10, counterexample: not every missing field yields an empty
string — on the empty document (no `link` tag matches) the feed-level link
falls back to the sourceUrl argument, not to "". -/
theorem C10_feed_link_counterexample :
    extractTag "" "link" = none
    ∧ (parseRssToJson "" "https://example.com/feed").feed.link = "https://example.com/feed" := by
  constructor <;> decide

/-- Claim C10 as amended: `parseRssToJson` is a total function returning a
document with status "ok" for every input, every missing field yields an
empty string except the feed-level link, which falls back to the sourceUrl
argument; consequently on a cache miss with a 2xx upstream response the
orchestrator always answers 200 — the 500 "Failed to parse RSS feed" branch
is unreachable. -/
theorem C10_parse_total_amended (xml url : String) :
    (parseRssToJson xml url).status = "ok"
    ∧ (extractTag xml "title" = none → (parseRssToJson xml url).feed.title = "")
    ∧ (extractTag xml "link" = none → (parseRssToJson xml url).feed.link = url)
    ∧ (extractTag xml "description" = none → extractTag xml "subtitle" = none →
        (parseRssToJson xml url).feed.description = "")
    ∧ (∀ (ph : String → Option String) (cm : String → Option WResponse)
        (us : String → Except String UpstreamResponse) (now : String)
        (req : WorkerRequest) (t : String) (up : UpstreamResponse),
        req.method = "GET" → req.urlParam = some t → t ≠ "" →
        isAllowedOrigin ph t = true →
        cm (cacheKeyUrl t (req.formatParam == some "json")) = none →
        us t = Except.ok up → 200 ≤ up.status → up.status ≤ 299 →
        (workerFetch ph cm us now req).response.status = 200) := by
  refine ⟨?_, ?_, ?_, ?_, ?_⟩
  · simp [parseRssToJson]
  · intro h; simp [parseRssToJson, jsOrS, h]
  · intro h; simp [parseRssToJson, jsOrS, h]
  · intro h1 h2; simp [parseRssToJson, jsOrS, h1, h2]
  · intro ph cm us now req t up hm hu ht hallow hcm hup h1 h2
    cases hph : ph t with
    | none => simp [isAllowedOrigin, hph] at hallow
    | some host =>
      have hok : (!(200 ≤ up.status && up.status ≤ 299)) = false := by
        rw [decide_eq_true h1, decide_eq_true h2]
        rfl
      simp [workerFetch, hm, hu, ht, hallow, hph, hcm, hup, hok, addCorsHeaders]

/-- Claim C10, witness: totality and defaulting on a tagless document, and
a concrete JSON-format request through the normalization path (2xx upstream
RSS body) answering 200. -/
theorem C10_parse_total_witness :
    (parseRssToJson "<x/>" "https://example.com/feed").status = "ok"
    ∧ (parseRssToJson "<x/>" "https://example.com/feed").feed.title = ""
    ∧ (workerFetch (fun _ => some "earthquake.usgs.gov") (fun _ => none)
        (fun _ => Except.ok { status := 200, statusText := "OK"
                            , contentType := some "text/xml", body := "<rss></rss>" }) "T"
        { method := "GET", urlParam := some "https://earthquake.usgs.gov/f"
        , formatParam := some "json", originHeader := none }).response.status = 200 :=
  ⟨(C10_parse_total_amended "<x/>" "https://example.com/feed").1,
   (C10_parse_total_amended "<x/>" "https://example.com/feed").2.1 (by decide),
   (C10_parse_total_amended "" "").2.2.2.2
      (fun _ => some "earthquake.usgs.gov") (fun _ => none)
      (fun _ => Except.ok { status := 200, statusText := "OK"
                          , contentType := some "text/xml", body := "<rss></rss>" }) "T"
      { method := "GET", urlParam := some "https://earthquake.usgs.gov/f"
      , formatParam := some "json", originHeader := none }
      "https://earthquake.usgs.gov/f"
      { status := 200, statusText := "OK", contentType := some "text/xml", body := "<rss></rss>" }
      rfl rfl (by decide) (by decide) rfl rfl (by decide) (by decide)⟩
